import Mathlib

/-!
Verification of lib/ansible/modules/web_infrastructure/ansible_tower/tower_schedule.py:
a shallow embedding of the module's functions (parse_datetime_string, build_rrule,
update_fields, update_resources, main) together with a model of the CPython
datetime.strptime / strftime behaviour the module delegates to, and theorems
settling the specification's claims about them.
-/

set_option maxHeartbeats 1000000

namespace TowerSchedule

/-- Python parameter values as they occur in this module's parameter
dictionaries: None, strings, integers, booleans, and the extra_data dict (a
mapping of variable names to values, modelled as string pairs). -/
inductive PVal where
  | vnone
  | vstr (s : String)
  | vint (n : Int)
  | vbool (b : Bool)
  | vdict (d : List (String × String))
deriving DecidableEq

/-- A Python dict with string keys: an insertion-ordered association list with
unique keys, as maintained by the operations below. -/
abbrev PMap := List (String × PVal)

/-- Dict lookup: d.get(k) as an Option (none when the key is absent). -/
def pget : PMap → String → Option PVal
  | [], _ => none
  | (k', v') :: rest, k => if k' == k then some v' else pget rest k

/-- Dict assignment d[k] = v: replaces the value in place when the key exists
(Python dicts keep the key's insertion position), appends otherwise. -/
def pset : PMap → String → PVal → PMap
  | [], k, v => [(k, v)]
  | (k', v') :: rest, k, v => if k' == k then (k, v) :: rest else (k', v') :: pset rest k v

/-- Dict deletion del d[k]. -/
def pdel : PMap → String → PMap
  | [], _ => []
  | (k', v') :: rest, k => if k' == k then rest else (k', v') :: pdel rest k

/-- Python truthiness of a parameter value, as tested by if params[k]. -/
def truthy : PVal → Bool
  | .vnone => false
  | .vstr s => s != ""
  | .vint n => n != 0
  | .vbool b => b
  | .vdict d => !d.isEmpty

/-- Python str() of a dict of strings (repr rendering). -/
def pyDictStr (d : List (String × String)) : String :=
  "\x7b" ++ String.intercalate ", " (d.map (fun kv => "'" ++ kv.1 ++ "': '" ++ kv.2 ++ "'")) ++ "\x7d"

/-- Python str() of a parameter value, as produced by str.format interpolation. -/
def pyStr : PVal → String
  | .vnone => "None"
  | .vstr s => s
  | .vint n => toString n
  | .vbool b => if b then "True" else "False"
  | .vdict d => pyDictStr d

/-- The decimal digit characters, as rendered by zero-padded %-formatting. -/
def digitChar : Nat → Char
  | 0 => '0' | 1 => '1' | 2 => '2' | 3 => '3' | 4 => '4'
  | 5 => '5' | 6 => '6' | 7 => '7' | 8 => '8' | 9 => '9'
  | _ => '?'

/-- The regex class backslash-d of CPython _strptime: an ASCII decimal digit. -/
def isDig (c : Char) : Bool := 48 ≤ c.toNat && c.toNat ≤ 57

/-- Code point range test for one character (regex character classes). -/
def inCR (lo hi : Nat) (c : Char) : Bool := lo ≤ c.toNat && c.toNat ≤ hi

/-- Numeric value of a digit character. -/
def dVal (c : Char) : Nat := c.toNat - 48

/-- CPython _strptime matches a literal format character (IGNORECASE matters
only for letters; the two case variants are passed explicitly). -/
def matchLit (a : Char) : List Char → Option (List Char)
  | c :: rest => if c = a then some rest else none
  | [] => none

/-- A case-insensitive literal, for the letters T and Z of the format. -/
def matchLitCI (a b : Char) : List Char → Option (List Char)
  | c :: rest => if c = a ∨ c = b then some rest else none
  | [] => none

/-- CPython _strptime regex for %Y: exactly four digits. -/
def matchYear : List Char → Option (Nat × List Char)
  | c1 :: c2 :: c3 :: c4 :: rest =>
      if isDig c1 && isDig c2 && isDig c3 && isDig c4 then
        some (((dVal c1 * 10 + dVal c2) * 10 + dVal c3) * 10 + dVal c4, rest)
      else none
  | _ => none

/-- CPython _strptime regex for %m: the ordered alternation 1[0-2], 0[1-9],
[1-9]. In this anchored fixed format the engine never backtracks from a
two-character alternative into a one-character one: every two-character
alternative ends in a digit, while the format character following each field
is never a digit, so first-match-wins is exact. The same argument applies to
the other two-digit fields below. -/
def matchMonth : List Char → Option (Nat × List Char)
  | c1 :: c2 :: rest =>
      if c1 = '1' && inCR 48 50 c2 then some (10 + dVal c2, rest)
      else if c1 = '0' && inCR 49 57 c2 then some (dVal c2, rest)
      else if inCR 49 57 c1 then some (dVal c1, c2 :: rest)
      else none
  | [c1] => if inCR 49 57 c1 then some (dVal c1, []) else none
  | [] => none

/-- CPython _strptime regex for %d: 3[01], [12] then a digit, 0[1-9], [1-9]. -/
def matchDay : List Char → Option (Nat × List Char)
  | c1 :: c2 :: rest =>
      if c1 = '3' && inCR 48 49 c2 then some (30 + dVal c2, rest)
      else if inCR 49 50 c1 && isDig c2 then some (10 * dVal c1 + dVal c2, rest)
      else if c1 = '0' && inCR 49 57 c2 then some (dVal c2, rest)
      else if inCR 49 57 c1 then some (dVal c1, c2 :: rest)
      else none
  | [c1] => if inCR 49 57 c1 then some (dVal c1, []) else none
  | [] => none

/-- CPython _strptime regex for %H: 2[0-3], [0-1] then a digit, or one digit. -/
def matchHour : List Char → Option (Nat × List Char)
  | c1 :: c2 :: rest =>
      if c1 = '2' && inCR 48 51 c2 then some (20 + dVal c2, rest)
      else if inCR 48 49 c1 && isDig c2 then some (10 * dVal c1 + dVal c2, rest)
      else if isDig c1 then some (dVal c1, c2 :: rest)
      else none
  | [c1] => if isDig c1 then some (dVal c1, []) else none
  | [] => none

/-- CPython _strptime regex for %M: [0-5] then a digit, or one digit. -/
def matchMinute : List Char → Option (Nat × List Char)
  | c1 :: c2 :: rest =>
      if inCR 48 53 c1 && isDig c2 then some (10 * dVal c1 + dVal c2, rest)
      else if isDig c1 then some (dVal c1, c2 :: rest)
      else none
  | [c1] => if isDig c1 then some (dVal c1, []) else none
  | [] => none

/-- CPython _strptime regex for %S: 6[0-1], [0-5] then a digit, or one digit
(leap seconds 60 and 61 pass the regex and are rejected later by the
datetime constructor). -/
def matchSecond : List Char → Option (Nat × List Char)
  | c1 :: c2 :: rest =>
      if c1 = '6' && inCR 48 49 c2 then some (60 + dVal c2, rest)
      else if inCR 48 53 c1 && isDig c2 then some (10 * dVal c1 + dVal c2, rest)
      else if isDig c1 then some (dVal c1, c2 :: rest)
      else none
  | [c1] => if isDig c1 then some (dVal c1, []) else none
  | [] => none

/-- The CPython _strptime regex for the full format string
%Y-%m-%dT%H:%M:%SZ, anchored at the start of the input (re.match);
the trailing rest is what the regex did not consume. -/
def runFormat (cs : List Char) : Option ((Nat × Nat × Nat × Nat × Nat × Nat) × List Char) :=
  match matchYear cs with
  | none => none
  | some (y, r1) =>
  match matchLit '-' r1 with
  | none => none
  | some r2 =>
  match matchMonth r2 with
  | none => none
  | some (mo, r3) =>
  match matchLit '-' r3 with
  | none => none
  | some r4 =>
  match matchDay r4 with
  | none => none
  | some (d, r5) =>
  match matchLitCI 'T' 't' r5 with
  | none => none
  | some r6 =>
  match matchHour r6 with
  | none => none
  | some (h, r7) =>
  match matchLit ':' r7 with
  | none => none
  | some r8 =>
  match matchMinute r8 with
  | none => none
  | some (mi, r9) =>
  match matchLit ':' r9 with
  | none => none
  | some r10 =>
  match matchSecond r10 with
  | none => none
  | some (se, r11) =>
  match matchLitCI 'Z' 'z' r11 with
  | none => none
  | some r12 => some ((y, mo, d, h, mi, se), r12)

/-- Leap year rule of the proleptic Gregorian calendar used by datetime. -/
def isLeap (y : Nat) : Bool := (y % 4 == 0 && y % 100 != 0) || y % 400 == 0

/-- Length of a month, as used by the datetime constructor. -/
def daysInMonth (y mo : Nat) : Nat :=
  if mo = 2 then (if isLeap y then 29 else 28)
  else if mo = 4 ∨ mo = 6 ∨ mo = 9 ∨ mo = 11 then 30
  else 31

/-- Validation performed by the datetime constructor (CPython check_date_args
and check_time_args), reached through datetime.strptime after the regex
matched; some None means the arguments are accepted. -/
def checkDatetime : Nat × Nat × Nat × Nat × Nat × Nat → Option String
  | (y, mo, d, h, mi, se) =>
    if y < 1 ∨ 9999 < y then some ("year " ++ toString y ++ " is out of range")
    else if mo < 1 ∨ 12 < mo then some "month must be in 1..12"
    else if d < 1 ∨ daysInMonth y mo < d then some "day is out of range for month"
    else if 23 < h then some "hour must be in 0..23"
    else if 59 < mi then some "minute must be in 0..59"
    else if 59 < se then some "second must be in 0..59"
    else none

/-- datetime.strptime(s, "%Y-%m-%dT%H:%M:%SZ"): the anchored regex match,
the unconverted-data check, then datetime construction; the error string is
the ValueError text the module interpolates into its failure message. -/
def strptimeZ (s : String) : Except String (Nat × Nat × Nat × Nat × Nat × Nat) :=
  match runFormat s.data with
  | none => .error ("time data '" ++ s ++ "' does not match format '%Y-%m-%dT%H:%M:%SZ'")
  | some (dt, rest) =>
    if rest.isEmpty then
      match checkDatetime dt with
      | some m => .error m
      | none => .ok dt
    else .error ("unconverted data remains: " ++ String.mk rest)

/-- Zero-padded two-digit rendering (%m, %d, %H, %M, %S for the in-range
values produced by strptimeZ). -/
def pad2 (n : Nat) : String := String.mk [digitChar (n / 10), digitChar (n % 10)]

/-- Platform strftime rendering of %Y (CPython delegates %Y to the C library;
on Linux glibc it is the year as an unpadded decimal number, so years below
1000 render with fewer than four digits), written out for the range 0..9999
that the four-digit %Y regex of strptimeZ can produce. -/
def yearRender (y : Nat) : List Char :=
  if 1000 ≤ y then
    [digitChar (y / 1000), digitChar (y / 100 % 10), digitChar (y / 10 % 10), digitChar (y % 10)]
  else if 100 ≤ y then [digitChar (y / 100), digitChar (y / 10 % 10), digitChar (y % 10)]
  else if 10 ≤ y then [digitChar (y / 10), digitChar (y % 10)]
  else [digitChar y]

/-- datetime.strftime(dt, "%Y%m%dT%H%M%SZ"): %m, %d, %H, %M and %S are
zero-padded two-digit fields, %Y is the platform's unpadded year. -/
def strftimeCompact : Nat × Nat × Nat × Nat × Nat × Nat → String
  | (y, mo, d, h, mi, se) =>
    String.mk (yearRender y) ++ pad2 mo ++ pad2 d ++ "T" ++ pad2 h ++ pad2 mi ++ pad2 se ++ "Z"

/-- Possible terminal results of a module run: module.exit_json(**json_output),
module.fail_json(msg=..., changed=...), or an uncaught Python exception. -/
inductive Outcome where
  | exitJson (out : PMap)
  | failJson (msg : String) (changed : Bool)
  | pyError (msg : String)
deriving DecidableEq

/-- parse_datetime_string (tower_schedule.py lines 123-137): strptime with the
fixed format, re-rendered with strftime; on ValueError the module fails with
the interpolated message and changed=False (fail_json terminates the run). -/
def parse_datetime_string (dt_string : String) : Except Outcome String :=
  match strptimeZ dt_string with
  | .ok dt => .ok (strftimeCompact dt)
  | .error excinfo =>
    .error (.failJson ("Failed to update schedule, unable to parse datetime " ++ dt_string ++ ": " ++ excinfo) false)

/-- unit_map of build_rrule (tower_schedule.py lines 144-149). -/
def unit_map : List (String × String) :=
  [("minute", "MINUTELY"), ("day", "DAILY"), ("hour", "HOURLY"), ("runonce", "DAILY")]

/-- build_rrule (tower_schedule.py lines 139-154): the format-string
interpolation expanded into concatenation; none models the KeyError a unit
outside unit_map would raise. -/
def build_rrule (startdate : String) (freq : PVal) (freq_unit : String) : Option String :=
  match (unit_map.find? (fun kv => kv.1 == freq_unit)).map (fun kv => kv.2) with
  | none => none
  | some u =>
    let result := "DTSTART:" ++ startdate ++ " RRULE:FREQ=" ++ u ++ ";INTERVAL=" ++ pyStr freq
    some (if freq_unit == "runonce" then result ++ "COUNT=1" else result)

/-- update_fields (tower_schedule.py lines 156-175). field_map is empty, so
the renaming loop contributes nothing; params_update can only receive the
serialized extra_data. yaml.dump is the external serializer collaborator and
is passed in as a function. -/
def update_fields (yaml_dump : PVal → String) (p : PMap) : PMap :=
  let params := p
  let params_update : PMap := []
  let params_update :=
    match pget params "extra_data" with
    | some extra_data =>
        if extra_data ≠ PVal.vnone then pset params_update "extra_data" (PVal.vstr (yaml_dump extra_data))
        else params_update
    | none => params_update
  params_update.foldl (fun acc kv => pset acc kv.1 kv.2) params

/-- Result dict of a tower_cli create/modify/delete call, as read by main
(result brackets changed, result brackets id). -/
structure RemoteResult where
  changed : Bool
  id : Int
deriving DecidableEq

/-- The tower_cli exceptions caught around the schedule call. -/
inductive RemoteErr where
  | connectionError (msg : String)
  | badRequest (msg : String)
  | notFound (msg : String)
deriving DecidableEq

/-- Python str() of the caught exception, as interpolated into fail_json. -/
def RemoteErr.message : RemoteErr → String
  | .connectionError m => m
  | .badRequest m => m
  | .notFound m => m

/-- The external tower_cli collaborator: by-name resource lookup (get with
one keyword field; an error is the exc.NotFound the module catches), and the
schedule delete and modify operations. -/
structure Env where
  lookup : String → String → PVal → Except String Int
  deleteSchedule : PMap → Except RemoteErr RemoteResult
  modifySchedule : PMap → Except RemoteErr RemoteResult

/-- One remote call issued during a run, in order of occurrence. -/
inductive RemoteCall where
  | lookup (resource : String) (field : String) (value : PVal)
  | deleteSchedule (params : PMap)
  | modifySchedule (params : PMap)
deriving DecidableEq

/-- identity_map of update_resources (tower_schedule.py lines 180-184). -/
def identity_map : List (String × String) :=
  [("job_template", "name"), ("project", "name"), ("inventory_source", "name")]

/-- The loop of update_resources (tower_schedule.py lines 185-194): for each
identity_map entry, a truthy parameter is resolved to its remote id (NotFound
aborts the run via fail_json with changed=False), a falsy one is deleted from
the dict; a missing key would raise an uncaught KeyError. Returns the remote
calls issued and either the rewritten dict or the terminal outcome. -/
def urLoop (env : Env) : List (String × String) → PMap → List RemoteCall × Except Outcome PMap
  | [], params => ([], .ok params)
  | (k, v) :: rest, params =>
    match pget params k with
    | none => ([], .error (.pyError ("KeyError: " ++ k)))
    | some pv =>
      if truthy pv then
        match env.lookup k v pv with
        | .ok rid =>
          let r := urLoop env rest (pset params k (.vint rid))
          (RemoteCall.lookup k v pv :: r.1, r.2)
        | .error excinfo =>
          ([RemoteCall.lookup k v pv], .error (.failJson ("Failed to update schedule: " ++ excinfo) false))
      else
        urLoop env rest (pdel params k)

/-- update_resources (tower_schedule.py lines 177-195). -/
def update_resources (env : Env) (p : PMap) : List RemoteCall × Except Outcome PMap :=
  urLoop env identity_map p

/-- The validated module parameters as produced by TowerModule from
argument_spec (tower_schedule.py lines 198-211): required name, state with
default present, defaults for description, frequency_unit and limit, None for
the optional fields, and the caller-supplied start string. -/
structure ScheduleSpec where
  name : String
  state : String := "present"
  description : String := ""
  job_template : PVal := PVal.vnone
  job_type : PVal := PVal.vnone
  project : PVal := PVal.vnone
  inventory_source : PVal := PVal.vnone
  start : String
  frequency : PVal := PVal.vnone
  frequency_unit : String := "runonce"
  extra_data : PVal := PVal.vnone
  limit : String := ""

/-- module.params right after TowerModule parsing, in argument_spec order. -/
def initParams (s : ScheduleSpec) : PMap :=
  [("name", PVal.vstr s.name), ("state", PVal.vstr s.state), ("description", PVal.vstr s.description),
   ("job_template", s.job_template), ("job_type", s.job_type), ("project", s.project),
   ("inventory_source", s.inventory_source), ("start", PVal.vstr s.start), ("frequency", s.frequency),
   ("frequency_unit", PVal.vstr s.frequency_unit), ("extra_data", s.extra_data), ("limit", PVal.vstr s.limit)]

/-- module.params after main pops state, frequency, frequency_unit and start
(tower_schedule.py lines 216-219). -/
def poppedParams (s : ScheduleSpec) : PMap :=
  pdel (pdel (pdel (pdel (initParams s) "state") "frequency") "frequency_unit") "start"

/-- The try block of main (tower_schedule.py lines 235-245): delete the
schedule when state is absent, otherwise modify it and record the remote id;
the three caught tower_cli exceptions become a fail_json with changed=False,
a success records changed from the result and exits. Returns the schedule
calls issued and the terminal outcome. -/
def remotePhase (env : Env) (state : String) (json_output : PMap) (params : PMap) :
    List RemoteCall × Outcome :=
  if state == "absent" then
    match env.deleteSchedule params with
    | .error e =>
      ([RemoteCall.deleteSchedule params],
       Outcome.failJson ("Failed to update schedule: " ++ e.message) false)
    | .ok result =>
      ([RemoteCall.deleteSchedule params],
       Outcome.exitJson (pset json_output "changed" (PVal.vbool result.changed)))
  else
    match env.modifySchedule params with
    | .error e =>
      ([RemoteCall.modifySchedule params],
       Outcome.failJson ("Failed to update schedule: " ++ e.message) false)
    | .ok result =>
      ([RemoteCall.modifySchedule params],
       Outcome.exitJson (pset (pset json_output "id" (PVal.vint result.id)) "changed" (PVal.vbool result.changed)))

/-- main (tower_schedule.py lines 197-245), from the parameter pops onward.
Authentication setup and check-mode short-circuiting are external collaborator
behaviour (spec sections 1 and 6) and sit outside the model; env supplies the
tower_cli calls. Returns the remote calls issued and the terminal outcome. -/
def main (env : Env) (yaml_dump : PVal → String) (s : ScheduleSpec) : List RemoteCall × Outcome :=
  let name := s.name
  let state := s.state
  let frequency := s.frequency
  let frequency_unit := s.frequency_unit
  let start := s.start
  let json_output : PMap := [("schedule", PVal.vstr name), ("state", PVal.vstr state)]
  match update_resources env (poppedParams s) with
  | (tr, .error o) => (tr, o)
  | (tr, .ok params0) =>
    let params1 := update_fields yaml_dump params0
    let params2 := pset params1 "create_on_missing" (PVal.vbool true)
    let params3 := pset params2 "enabled" (PVal.vbool (!(state == "disabled")))
    match parse_datetime_string start with
    | .error o => (tr, o)
    | .ok dtstart =>
      match build_rrule dtstart frequency frequency_unit with
      | none => (tr, Outcome.pyError ("KeyError: " ++ frequency_unit))
      | some rr =>
        let params4 := pset params3 "rrule" (PVal.vstr rr)
        let r := remotePhase env state json_output params4
        (tr ++ r.1, r.2)

/-- The parameter dict handed to the schedule delete or modify call: the
resolved dict after update_fields, create_on_missing, enabled and rrule. -/
def finalParams (yaml_dump : PVal → String) (s : ScheduleSpec) (pr : PMap) (rr : String) : PMap :=
  pset (pset (pset (update_fields yaml_dump pr) "create_on_missing" (PVal.vbool true))
    "enabled" (PVal.vbool (!(s.state == "disabled")))) "rrule" (PVal.vstr rr)

/-- json_output before the remote phase. -/
def jsonBase (s : ScheduleSpec) : PMap :=
  [("schedule", PVal.vstr s.name), ("state", PVal.vstr s.state)]

/-- A string of the exact spec pattern YYYY-MM-DDTHH:MM:SSZ (spec section
4.1): the zero-padded rendering of the given calendar components. -/
def isoRender (y mo d h mi se : Nat) : String :=
  String.mk [digitChar (y / 1000), digitChar (y / 100 % 10), digitChar (y / 10 % 10), digitChar (y % 10), '-',
    digitChar (mo / 10), digitChar (mo % 10), '-', digitChar (d / 10), digitChar (d % 10), 'T',
    digitChar (h / 10), digitChar (h % 10), ':', digitChar (mi / 10), digitChar (mi % 10), ':',
    digitChar (se / 10), digitChar (se % 10), 'Z']

/-- The compact re-rendering YYYYMMDDTHHMMSSZ the spec promises (section 4.1). -/
def compactRender (y mo d h mi se : Nat) : String :=
  String.mk [digitChar (y / 1000), digitChar (y / 100 % 10), digitChar (y / 10 % 10), digitChar (y % 10),
    digitChar (mo / 10), digitChar (mo % 10), digitChar (d / 10), digitChar (d % 10), 'T',
    digitChar (h / 10), digitChar (h % 10), digitChar (mi / 10), digitChar (mi % 10),
    digitChar (se / 10), digitChar (se % 10), 'Z']

/-- Modelled from the spec wording only (section 4.1), for comparison with the
code: a string matches the fixed pattern YYYY-MM-DDTHH:MM:SSZ exactly when it
is twenty characters with digits in the component positions and the literal
separators between them. -/
def matchesFixedPattern (s : String) : Bool :=
  match s.data with
  | [y1, y2, y3, y4, s1, m1, m2, s2, d1, d2, t, h1, h2, c1, i1, i2, c2, e1, e2, z] =>
    isDig y1 && isDig y2 && isDig y3 && isDig y4 && s1 = '-' && isDig m1 && isDig m2 && s2 = '-' &&
    isDig d1 && isDig d2 && t = 'T' && isDig h1 && isDig h2 && c1 = ':' && isDig i1 && isDig i2 &&
    c2 = ':' && isDig e1 && isDig e2 && z = 'Z'
  | _ => false

/-! ## Concrete environments and inputs used by witnesses and counterexamples -/

/-- An environment whose lookups resolve to id 7 and whose schedule calls
report changed with id 3. -/
def okEnv : Env :=
  Env.mk (fun _ _ _ => Except.ok 7)
    (fun _ => Except.ok (RemoteResult.mk true 0))
    (fun _ => Except.ok (RemoteResult.mk true 3))

/-- An environment whose lookups fail with a NotFound message. -/
def notFoundEnv : Env :=
  Env.mk (fun _ _ _ => Except.error "404")
    (fun _ => Except.ok (RemoteResult.mk true 0))
    (fun _ => Except.ok (RemoteResult.mk true 3))

/-- A spec naming a job template but carrying a malformed start timestamp. -/
def badStartSpec : ScheduleSpec :=
  ScheduleSpec.mk "s1" "present" "" (PVal.vstr "jt") PVal.vnone PVal.vnone PVal.vnone
    "bogus" (PVal.vint 1) "runonce" PVal.vnone ""

/-- A spec naming a job template, with a valid start timestamp. -/
def jtSpec : ScheduleSpec :=
  ScheduleSpec.mk "s2" "present" "" (PVal.vstr "jt") PVal.vnone PVal.vnone PVal.vnone
    "2018-01-01T00:00:00Z" (PVal.vint 30) "minute" PVal.vnone ""

/-- A minimal present-state spec with no target field. -/
def presentSpec : ScheduleSpec :=
  ScheduleSpec.mk "n" "present" "" PVal.vnone PVal.vnone PVal.vnone PVal.vnone
    "2018-01-01T00:00:00Z" (PVal.vint 1) "runonce" PVal.vnone ""

/-- A minimal absent-state spec with no target field. -/
def absentSpec : ScheduleSpec :=
  ScheduleSpec.mk "n" "absent" "" PVal.vnone PVal.vnone PVal.vnone PVal.vnone
    "2018-01-01T00:00:00Z" (PVal.vint 1) "runonce" PVal.vnone ""

/-- The schedule-call parameter dict produced by the runs of presentSpec and
absentSpec against okEnv. -/
def schedParams : PMap :=
  [("name", PVal.vstr "n"), ("description", PVal.vstr ""), ("job_type", PVal.vnone),
   ("extra_data", PVal.vnone), ("limit", PVal.vstr ""), ("create_on_missing", PVal.vbool true),
   ("enabled", PVal.vbool true),
   ("rrule", PVal.vstr "DTSTART:20180101T000000Z RRULE:FREQ=DAILY;INTERVAL=1COUNT=1")]

/-- The json_output of the absentSpec run against okEnv. -/
def absentOut : PMap :=
  [("schedule", PVal.vstr "n"), ("state", PVal.vstr "absent"), ("changed", PVal.vbool true)]

/-! ## Helper lemmas about the dict operations -/

theorem pget_pset_self (m : PMap) (k : String) (v : PVal) : pget (pset m k v) k = some v := by
  induction m with
  | nil => simp [pset, pget]
  | cons kv rest ih =>
    obtain ⟨k', v'⟩ := kv
    by_cases h : k' = k
    · simp [pset, pget, h]
    · simp [pset, pget, h, ih]

theorem pget_pset_ne (m : PMap) (k k' : String) (v : PVal) (h : k' ≠ k) :
    pget (pset m k v) k' = pget m k' := by
  have h2 : ¬ k = k' := fun hh => h hh.symm
  induction m with
  | nil => simp [pset, pget, h2]
  | cons kv rest ih =>
    obtain ⟨k0, v0⟩ := kv
    by_cases h0 : k0 = k
    · subst h0; simp [pset, pget, h2]
    · simp [pset, pget, h0, ih]

theorem pget_pdel_ne (m : PMap) (k k' : String) (h : k' ≠ k) :
    pget (pdel m k) k' = pget m k' := by
  have h2 : ¬ k = k' := fun hh => h hh.symm
  induction m with
  | nil => simp [pdel]
  | cons kv rest ih =>
    obtain ⟨k0, v0⟩ := kv
    by_cases h0 : k0 = k
    · subst h0; simp [pdel, pget, h2]
    · simp [pdel, pget, h0, ih]

theorem pget_pset_isSome (m : PMap) (k k' : String) (v : PVal) (h : pget m k' ≠ none) :
    pget (pset m k v) k' ≠ none := by
  by_cases hk : k' = k
  · rw [hk, pget_pset_self]; simp
  · rwa [pget_pset_ne m k k' v hk]

/-! ## Helper lemmas about the strptime model -/

theorem isDig_digitChar {d : Nat} (h : d < 10) : isDig (digitChar d) = true := by
  interval_cases d <;> rfl

theorem dVal_digitChar {d : Nat} (h : d < 10) : dVal (digitChar d) = d := by
  interval_cases d <;> rfl

theorem matchYear_digits {a b c e : Nat} {rest : List Char}
    (ha : a < 10) (hb : b < 10) (hc : c < 10) (he : e < 10) :
    matchYear (digitChar a :: digitChar b :: digitChar c :: digitChar e :: rest) =
      some (((a * 10 + b) * 10 + c) * 10 + e, rest) := by
  simp [matchYear, isDig_digitChar, dVal_digitChar, ha, hb, hc, he]

theorem matchMonth_two {mo : Nat} {rest : List Char} (h1 : 1 ≤ mo) (h2 : mo ≤ 12) :
    matchMonth (digitChar (mo / 10) :: digitChar (mo % 10) :: rest) = some (mo, rest) := by
  interval_cases mo <;> rfl

theorem matchDay_two {d : Nat} {rest : List Char} (h1 : 1 ≤ d) (h2 : d ≤ 31) :
    matchDay (digitChar (d / 10) :: digitChar (d % 10) :: rest) = some (d, rest) := by
  interval_cases d <;> rfl

theorem matchHour_two {h : Nat} {rest : List Char} (h2 : h ≤ 23) :
    matchHour (digitChar (h / 10) :: digitChar (h % 10) :: rest) = some (h, rest) := by
  interval_cases h <;> rfl

theorem matchMinute_two {mi : Nat} {rest : List Char} (h2 : mi ≤ 59) :
    matchMinute (digitChar (mi / 10) :: digitChar (mi % 10) :: rest) = some (mi, rest) := by
  interval_cases mi <;> rfl

theorem matchSecond_two {se : Nat} {rest : List Char} (h2 : se ≤ 59) :
    matchSecond (digitChar (se / 10) :: digitChar (se % 10) :: rest) = some (se, rest) := by
  interval_cases se <;> rfl

theorem daysInMonth_le (y mo : Nat) : daysInMonth y mo ≤ 31 := by
  unfold daysInMonth
  split_ifs <;> omega

theorem runFormat_isoRender {y mo d h mi se : Nat} (hy : y ≤ 9999)
    (hmo1 : 1 ≤ mo) (hmo : mo ≤ 12) (hd1 : 1 ≤ d) (hd : d ≤ 31)
    (hh : h ≤ 23) (hmi : mi ≤ 59) (hse : se ≤ 59) :
    runFormat (isoRender y mo d h mi se).data = some ((y, mo, d, h, mi, se), []) := by
  have ha : y / 1000 < 10 := by omega
  have hb : y / 100 % 10 < 10 := by omega
  have hc : y / 10 % 10 < 10 := by omega
  have he : y % 10 < 10 := by omega
  have hyy : ((y / 1000 * 10 + y / 100 % 10) * 10 + y / 10 % 10) * 10 + y % 10 = y := by omega
  show runFormat (digitChar (y / 1000) :: digitChar (y / 100 % 10) :: digitChar (y / 10 % 10) ::
      digitChar (y % 10) :: '-' :: digitChar (mo / 10) :: digitChar (mo % 10) :: '-' ::
      digitChar (d / 10) :: digitChar (d % 10) :: 'T' :: digitChar (h / 10) :: digitChar (h % 10) ::
      ':' :: digitChar (mi / 10) :: digitChar (mi % 10) :: ':' :: digitChar (se / 10) ::
      digitChar (se % 10) :: 'Z' :: []) = some ((y, mo, d, h, mi, se), [])
  rw [runFormat, matchYear_digits ha hb hc he]
  simp [matchLit, matchLitCI, hyy, matchMonth_two hmo1 hmo, matchDay_two hd1 hd,
    matchHour_two hh, matchMinute_two hmi, matchSecond_two hse]

theorem checkDatetime_none {y mo d h mi se : Nat} (hy1 : 1 ≤ y) (hy : y ≤ 9999)
    (hmo1 : 1 ≤ mo) (hmo : mo ≤ 12) (hd1 : 1 ≤ d) (hd : d ≤ daysInMonth y mo)
    (hh : h ≤ 23) (hmi : mi ≤ 59) (hse : se ≤ 59) :
    checkDatetime (y, mo, d, h, mi, se) = none := by
  simp only [checkDatetime]
  split_ifs with h1 h2 h3 h4 h5 h6 <;> first | rfl | omega

theorem strptimeZ_isoRender {y mo d h mi se : Nat} (hy1 : 1 ≤ y) (hy : y ≤ 9999)
    (hmo1 : 1 ≤ mo) (hmo : mo ≤ 12) (hd1 : 1 ≤ d) (hd : d ≤ daysInMonth y mo)
    (hh : h ≤ 23) (hmi : mi ≤ 59) (hse : se ≤ 59) :
    strptimeZ (isoRender y mo d h mi se) = Except.ok (y, mo, d, h, mi, se) := by
  have hd31 : d ≤ 31 := le_trans hd (daysInMonth_le y mo)
  rw [strptimeZ, runFormat_isoRender hy hmo1 hmo hd1 hd31 hh hmi hse]
  simp [checkDatetime_none hy1 hy hmo1 hmo hd1 hd hh hmi hse]

/-- C3 counterexample: 0005-01-01T00:00:00Z matches the fixed pattern and
denotes a valid calendar date, yet the program renders the year unpadded: the
result is 50101T000000Z, not the compact re-rendering 00050101T000000Z. -/
theorem parse_datetime_small_year_cex :
    matchesFixedPattern "0005-01-01T00:00:00Z" = true ∧
    parse_datetime_string "0005-01-01T00:00:00Z" = Except.ok "50101T000000Z" ∧
    "50101T000000Z" ≠ compactRender 5 1 1 0 0 0 :=
  ⟨rfl, rfl, by decide⟩

/-- C3 (amended): every input string matching the fixed pattern
YYYY-MM-DDTHH:MM:SSZ, denoting a valid calendar date with a year of at least
1000, is accepted by parse_datetime_string and re-rendered in the compact
form YYYYMMDDTHHMMSSZ; for years below 1000 the platform strftime renders the
year without padding, so the output is not of that form. -/
theorem parse_datetime_valid_iso {y mo d h mi se : Nat} (hy1 : 1000 ≤ y) (hy : y ≤ 9999)
    (hmo1 : 1 ≤ mo) (hmo : mo ≤ 12) (hd1 : 1 ≤ d) (hd : d ≤ daysInMonth y mo)
    (hh : h ≤ 23) (hmi : mi ≤ 59) (hse : se ≤ 59) :
    parse_datetime_string (isoRender y mo d h mi se) = Except.ok (compactRender y mo d h mi se) := by
  have hy0 : 1 ≤ y := by omega
  have hyr : yearRender y = [digitChar (y / 1000), digitChar (y / 100 % 10),
      digitChar (y / 10 % 10), digitChar (y % 10)] := by
    unfold yearRender
    rw [if_pos hy1]
  rw [parse_datetime_string, strptimeZ_isoRender hy0 hy hmo1 hmo hd1 hd hh hmi hse]
  show Except.ok (strftimeCompact (y, mo, d, h, mi, se)) = _
  simp only [strftimeCompact, hyr]
  rfl

/-- C3 witness: the instance named by the spec, 2018-01-01T00:00:00Z maps to
20180101T000000Z. -/
theorem parse_datetime_valid_iso_witness :
    parse_datetime_string "2018-01-01T00:00:00Z" = Except.ok "20180101T000000Z" :=
  @parse_datetime_valid_iso 2018 1 1 0 0 0 (by decide) (by decide) (by decide) (by decide)
    (by decide) (by decide) (by decide) (by decide) (by decide)

/-! ## build_rrule (claims C1, C5) -/

/-- C1: for every anchor string and interval count, build_rrule with unit
runonce (the spec's once) returns exactly
DTSTART:anchor RRULE:FREQ=DAILY;INTERVAL=n followed immediately by COUNT=1
with no separator. -/
theorem build_rrule_runonce_count (a : String) (n : Int) :
    build_rrule a (PVal.vint n) "runonce" =
      some ("DTSTART:" ++ a ++ " RRULE:FREQ=DAILY;INTERVAL=" ++ toString n ++ "COUNT=1") := by
  have key : ∀ x : String,
      " RRULE:FREQ=" ++ ("DAILY" ++ (";INTERVAL=" ++ x)) = " RRULE:FREQ=DAILY;INTERVAL=" ++ x := by
    intro x
    rw [← String.append_assoc, ← String.append_assoc]
    rfl
  show some ("DTSTART:" ++ a ++ " RRULE:FREQ=" ++ "DAILY" ++ ";INTERVAL=" ++ toString n ++ "COUNT=1") = _
  simp only [String.append_assoc]
  rw [key]

/-- C5: for every anchor string and interval count and each periodic unit,
build_rrule returns DTSTART:anchor RRULE:FREQ=F;INTERVAL=n with F from the
fixed mapping minute to MINUTELY, hour to HOURLY, day to DAILY, and no COUNT
suffix. -/
theorem build_rrule_periodic_units (a : String) (n : Int) :
    build_rrule a (PVal.vint n) "minute" =
      some ("DTSTART:" ++ a ++ " RRULE:FREQ=MINUTELY;INTERVAL=" ++ toString n) ∧
    build_rrule a (PVal.vint n) "hour" =
      some ("DTSTART:" ++ a ++ " RRULE:FREQ=HOURLY;INTERVAL=" ++ toString n) ∧
    build_rrule a (PVal.vint n) "day" =
      some ("DTSTART:" ++ a ++ " RRULE:FREQ=DAILY;INTERVAL=" ++ toString n) := by
  refine ⟨?_, ?_, ?_⟩
  · have key : ∀ x : String,
        " RRULE:FREQ=" ++ ("MINUTELY" ++ (";INTERVAL=" ++ x)) = " RRULE:FREQ=MINUTELY;INTERVAL=" ++ x := by
      intro x
      rw [← String.append_assoc, ← String.append_assoc]
      rfl
    show some ("DTSTART:" ++ a ++ " RRULE:FREQ=" ++ "MINUTELY" ++ ";INTERVAL=" ++ toString n) = _
    simp only [String.append_assoc]
    rw [key]
  · have key : ∀ x : String,
        " RRULE:FREQ=" ++ ("HOURLY" ++ (";INTERVAL=" ++ x)) = " RRULE:FREQ=HOURLY;INTERVAL=" ++ x := by
      intro x
      rw [← String.append_assoc, ← String.append_assoc]
      rfl
    show some ("DTSTART:" ++ a ++ " RRULE:FREQ=" ++ "HOURLY" ++ ";INTERVAL=" ++ toString n) = _
    simp only [String.append_assoc]
    rw [key]
  · have key : ∀ x : String,
        " RRULE:FREQ=" ++ ("DAILY" ++ (";INTERVAL=" ++ x)) = " RRULE:FREQ=DAILY;INTERVAL=" ++ x := by
      intro x
      rw [← String.append_assoc, ← String.append_assoc]
      rfl
    show some ("DTSTART:" ++ a ++ " RRULE:FREQ=" ++ "DAILY" ++ ";INTERVAL=" ++ toString n) = _
    simp only [String.append_assoc]
    rw [key]

/-! ## parse_datetime_string failures (claim C4) -/

/-- C4 counterexample: 2018-1-01T00:00:00Z does not match the fixed pattern
YYYY-MM-DDTHH:MM:SSZ (its month has one digit), yet parse_datetime_string
accepts it and returns a result, because CPython strptime also accepts
unpadded one- and two-digit numeric fields. -/
theorem parse_datetime_nonpattern_cex :
    matchesFixedPattern "2018-1-01T00:00:00Z" = false ∧
    parse_datetime_string "2018-1-01T00:00:00Z" = Except.ok "20180101T000000Z" := by
  constructor
  · rfl
  · rfl

/-- C4 (amended): every input string the fixed-format parse rejects — which
includes a missing trailing Z, slash separators and invalid calendar dates
such as month 13, but not every deviation from the pattern — makes
parse_datetime_string fail with a ParseError report (changed=False) whose
message contains both the offending input and the underlying reason, and no
result is returned for it. -/
theorem parse_datetime_rejected (s e : String) (h : strptimeZ s = Except.error e) :
    parse_datetime_string s =
      Except.error (Outcome.failJson
        ("Failed to update schedule, unable to parse datetime " ++ s ++ ": " ++ e) false) ∧
    s.data <:+: ("Failed to update schedule, unable to parse datetime " ++ s ++ ": " ++ e).data ∧
    e.data <:+: ("Failed to update schedule, unable to parse datetime " ++ s ++ ": " ++ e).data := by
  refine ⟨?_, ?_, ?_⟩
  · rw [parse_datetime_string, h]
  · exact ⟨"Failed to update schedule, unable to parse datetime ".data, (": " ++ e).data,
      by simp [String.data_append]⟩
  · exact ⟨("Failed to update schedule, unable to parse datetime " ++ s ++ ": ").data, [],
      by simp [String.data_append]⟩

/-- C4 witness: the missing-Z input named by the spec is rejected with the
full report. -/
theorem parse_datetime_rejected_witness :
    parse_datetime_string "2018-01-01T00:00:00" =
      Except.error (Outcome.failJson
        "Failed to update schedule, unable to parse datetime 2018-01-01T00:00:00: time data '2018-01-01T00:00:00' does not match format '%Y-%m-%dT%H:%M:%SZ'"
        false) :=
  (parse_datetime_rejected "2018-01-01T00:00:00"
    "time data '2018-01-01T00:00:00' does not match format '%Y-%m-%dT%H:%M:%SZ'" rfl).1

/-! ## update_fields (claim C10) -/

/-- C10: update_fields returns a dict agreeing with its input on every key
other than extra_data; a present, non-None extra_data is replaced by its YAML
serialization (the serializer is the external yaml.dump collaborator), and
otherwise the result is the input dict exactly. The input dict is never
mutated: the embedding is a pure function of it, mirroring p.copy() in the
source. -/
theorem update_fields_frame (yaml_dump : PVal → String) (p : PMap) :
    (∀ k, k ≠ "extra_data" → pget (update_fields yaml_dump p) k = pget p k) ∧
    (∀ v, pget p "extra_data" = some v → v ≠ PVal.vnone →
      pget (update_fields yaml_dump p) "extra_data" = some (PVal.vstr (yaml_dump v))) ∧
    ((pget p "extra_data" = none ∨ pget p "extra_data" = some PVal.vnone) →
      update_fields yaml_dump p = p) := by
  refine ⟨?_, ?_, ?_⟩
  · intro k hk
    cases hx : pget p "extra_data" with
    | none => simp [update_fields, hx]
    | some v =>
      by_cases hv : v = PVal.vnone
      · simp [update_fields, hx, hv]
      · simp [update_fields, hx, hv, pset]
        exact pget_pset_ne p "extra_data" k _ hk
  · intro v hx hv
    simp [update_fields, hx, hv, pset]
    exact pget_pset_self p "extra_data" _
  · intro hx
    rcases hx with hx | hx
    · simp [update_fields, hx]
    · simp [update_fields, hx]

/-- C10 witness: a concrete dict with a non-None extra_data entry keeps its
other keys and serializes the entry. -/
theorem update_fields_frame_witness :
    pget (update_fields pyStr [("name", PVal.vstr "n"), ("extra_data", PVal.vdict [("a", "b")])]) "name" =
      pget [("name", PVal.vstr "n"), ("extra_data", PVal.vdict [("a", "b")])] "name" ∧
    pget (update_fields pyStr [("name", PVal.vstr "n"), ("extra_data", PVal.vdict [("a", "b")])]) "extra_data" =
      some (PVal.vstr (pyStr (PVal.vdict [("a", "b")]))) :=
  ⟨(update_fields_frame pyStr [("name", PVal.vstr "n"), ("extra_data", PVal.vdict [("a", "b")])]).1
      "name" (by decide),
   (update_fields_frame pyStr [("name", PVal.vstr "n"), ("extra_data", PVal.vdict [("a", "b")])]).2.1
      (PVal.vdict [("a", "b")]) (by decide) (by decide)⟩

/-! ## Helper lemmas about update_resources and main -/

theorem urLoop_trace_lookups (env : Env) (l : List (String × String)) (params : PMap) :
    ∀ c ∈ (urLoop env l params).1, ∃ k f v, c = RemoteCall.lookup k f v := by
  induction l generalizing params with
  | nil => intro c hc; simp [urLoop] at hc
  | cons kv rest ih =>
    obtain ⟨k, v⟩ := kv
    intro c hc
    cases hg : pget params k with
    | none => simp [urLoop, hg] at hc
    | some pv =>
      by_cases ht : truthy pv = true
      · cases hl : env.lookup k v pv with
        | ok rid =>
          simp only [urLoop, hg, ht, if_true, hl] at hc
          rcases List.mem_cons.mp hc with h | h
          · exact ⟨k, v, pv, h⟩
          · exact ih _ c h
        | error ex =>
          simp only [urLoop, hg, ht, if_true, hl] at hc
          simp at hc
          exact ⟨k, v, pv, hc⟩
      · simp only [urLoop, hg, ht, if_false] at hc
        exact ih _ c hc

theorem urLoop_ok_or_failjson (env : Env) (l : List (String × String)) (params : PMap)
    (hpres : ∀ kv ∈ l, pget params kv.1 ≠ none) (hnd : (l.map Prod.fst).Nodup) :
    (∃ pr, (urLoop env l params).2 = Except.ok pr) ∨
    (∃ m, (urLoop env l params).2 = Except.error (Outcome.failJson m false)) := by
  induction l generalizing params with
  | nil => exact Or.inl ⟨params, rfl⟩
  | cons kv rest ih =>
    obtain ⟨k, v⟩ := kv
    have hk : pget params k ≠ none := hpres (k, v) (List.mem_cons_self _ _)
    have hnd2 : (rest.map Prod.fst).Nodup := (List.nodup_cons.mp (by simpa using hnd)).2
    cases hg : pget params k with
    | none => exact absurd hg hk
    | some pv =>
      by_cases ht : truthy pv = true
      · cases hl : env.lookup k v pv with
        | ok rid =>
          have h2 : (urLoop env ((k, v) :: rest) params).2 =
              (urLoop env rest (pset params k (PVal.vint rid))).2 := by
            simp [urLoop, hg, ht, hl]
          rw [h2]
          apply ih
          intro kv2 h2m
          exact pget_pset_isSome params k kv2.1 _ (hpres kv2 (List.mem_cons_of_mem _ h2m))
          exact hnd2
        | error ex =>
          right
          exact ⟨"Failed to update schedule: " ++ ex, by simp [urLoop, hg, ht, hl]⟩
      · have h1 : urLoop env ((k, v) :: rest) params = urLoop env rest (pdel params k) := by
          simp [urLoop, hg, ht]
        rw [h1]
        apply ih
        intro kv2 h2m
        have hknotin : k ∉ rest.map Prod.fst := (List.nodup_cons.mp (by simpa using hnd)).1
        have hne : kv2.1 ≠ k := by
          intro he
          exact hknotin (he ▸ List.mem_map_of_mem Prod.fst h2m)
        rw [pget_pdel_ne params k kv2.1 hne]
        exact hpres kv2 (List.mem_cons_of_mem _ h2m)
        exact hnd2

theorem update_resources_trace_lookups (env : Env) (p : PMap) :
    ∀ c ∈ (update_resources env p).1, ∃ k f v, c = RemoteCall.lookup k f v :=
  urLoop_trace_lookups env identity_map p

theorem poppedParams_keys (s : ScheduleSpec) :
    ∀ kv ∈ identity_map, pget (poppedParams s) kv.1 ≠ none := by
  intro kv hkv
  simp [identity_map] at hkv
  rcases hkv with h | h | h <;> subst h
  · show pget (poppedParams s) "job_template" ≠ none
    rw [show pget (poppedParams s) "job_template" = some s.job_template from rfl]
    simp
  · show pget (poppedParams s) "project" ≠ none
    rw [show pget (poppedParams s) "project" = some s.project from rfl]
    simp
  · show pget (poppedParams s) "inventory_source" ≠ none
    rw [show pget (poppedParams s) "inventory_source" = some s.inventory_source from rfl]
    simp

theorem update_resources_main_shape (env : Env) (s : ScheduleSpec) :
    (∃ pr, (update_resources env (poppedParams s)).2 = Except.ok pr) ∨
    (∃ m, (update_resources env (poppedParams s)).2 = Except.error (Outcome.failJson m false)) :=
  urLoop_ok_or_failjson env identity_map (poppedParams s) (poppedParams_keys s) (by decide)

theorem parse_err_shape (st : String) (o : Outcome)
    (h : parse_datetime_string st = Except.error o) : ∃ m, o = Outcome.failJson m false := by
  cases hs : strptimeZ st with
  | ok dt => simp [parse_datetime_string, hs] at h
  | error e =>
    simp [parse_datetime_string, hs] at h
    exact ⟨"Failed to update schedule, unable to parse datetime " ++ st ++ ": " ++ e, h.symm⟩

theorem main_eq_of_ur_error (env : Env) (yd : PVal → String) (s : ScheduleSpec)
    (tr : List RemoteCall) (o : Outcome)
    (h : update_resources env (poppedParams s) = (tr, Except.error o)) :
    main env yd s = (tr, o) := by
  unfold main
  rw [h]

theorem main_eq_of_parse_err (env : Env) (yd : PVal → String) (s : ScheduleSpec)
    (tr : List RemoteCall) (pr : PMap) (o : Outcome)
    (hur : update_resources env (poppedParams s) = (tr, Except.ok pr))
    (hp : parse_datetime_string s.start = Except.error o) :
    main env yd s = (tr, o) := by
  unfold main
  rw [hur]
  simp only [hp]

theorem main_eq_of_build_none (env : Env) (yd : PVal → String) (s : ScheduleSpec)
    (tr : List RemoteCall) (pr : PMap) (dtstart : String)
    (hur : update_resources env (poppedParams s) = (tr, Except.ok pr))
    (hp : parse_datetime_string s.start = Except.ok dtstart)
    (hb : build_rrule dtstart s.frequency s.frequency_unit = none) :
    main env yd s = (tr, Outcome.pyError ("KeyError: " ++ s.frequency_unit)) := by
  unfold main
  rw [hur]
  simp only [hp, hb]

theorem main_eq_of_success (env : Env) (yd : PVal → String) (s : ScheduleSpec)
    (tr : List RemoteCall) (pr : PMap) (dtstart rr : String)
    (hur : update_resources env (poppedParams s) = (tr, Except.ok pr))
    (hp : parse_datetime_string s.start = Except.ok dtstart)
    (hb : build_rrule dtstart s.frequency s.frequency_unit = some rr) :
    main env yd s = (tr ++ (remotePhase env s.state (jsonBase s) (finalParams yd s pr rr)).1,
      (remotePhase env s.state (jsonBase s) (finalParams yd s pr rr)).2) := by
  unfold main
  rw [hur]
  simp only [hp, hb]
  rfl

theorem remotePhase_trace (env : Env) (st : String) (json params : PMap) :
    (remotePhase env st json params).1 = [RemoteCall.deleteSchedule params] ∨
    (remotePhase env st json params).1 = [RemoteCall.modifySchedule params] := by
  unfold remotePhase
  split_ifs
  · left
    cases hd : env.deleteSchedule params <;> rfl
  · right
    cases hd : env.modifySchedule params <;> rfl

theorem remotePhase_fail_false (env : Env) (st : String) (json params : PMap) (m : String) (c : Bool)
    (h : (remotePhase env st json params).2 = Outcome.failJson m c) : c = false := by
  unfold remotePhase at h
  split_ifs at h
  · cases hd : env.deleteSchedule params <;> rw [hd] at h <;> simp_all
  · cases hd : env.modifySchedule params <;> rw [hd] at h <;> simp_all

theorem remotePhase_absent_ok (env : Env) (st : String) (json params : PMap) (r : RemoteResult)
    (h : (st == "absent") = true) (hd : env.deleteSchedule params = Except.ok r) :
    remotePhase env st json params =
      ([RemoteCall.deleteSchedule params],
       Outcome.exitJson (pset json "changed" (PVal.vbool r.changed))) := by
  unfold remotePhase
  rw [if_pos h, hd]

theorem remotePhase_absent_err (env : Env) (st : String) (json params : PMap) (e : RemoteErr)
    (h : (st == "absent") = true) (hd : env.deleteSchedule params = Except.error e) :
    remotePhase env st json params =
      ([RemoteCall.deleteSchedule params],
       Outcome.failJson ("Failed to update schedule: " ++ e.message) false) := by
  unfold remotePhase
  rw [if_pos h, hd]

theorem remotePhase_present_ok (env : Env) (st : String) (json params : PMap) (r : RemoteResult)
    (h : (st == "absent") = false) (hd : env.modifySchedule params = Except.ok r) :
    remotePhase env st json params =
      ([RemoteCall.modifySchedule params],
       Outcome.exitJson (pset (pset json "id" (PVal.vint r.id)) "changed" (PVal.vbool r.changed))) := by
  unfold remotePhase
  rw [if_neg (by simp [h]), hd]

theorem remotePhase_present_err (env : Env) (st : String) (json params : PMap) (e : RemoteErr)
    (h : (st == "absent") = false) (hd : env.modifySchedule params = Except.error e) :
    remotePhase env st json params =
      ([RemoteCall.modifySchedule params],
       Outcome.failJson ("Failed to update schedule: " ++ e.message) false) := by
  unfold remotePhase
  rw [if_neg (by simp [h]), hd]

/-! ## Orchestration claims -/

/-- C2 (amended): whenever the start timestamp is malformed, the whole
operation fails with a fail_json report carrying changed=False, and no
create, modify or delete call on the schedule resource is ever attempted;
resource lookups, however, may have been attempted before the failure,
because update_resources runs before the timestamp is parsed. -/
theorem main_malformed_start_no_mutation (env : Env) (yd : PVal → String) (s : ScheduleSpec)
    (e : String) (h : strptimeZ s.start = Except.error e) :
    (∃ m, (main env yd s).2 = Outcome.failJson m false) ∧
    (∀ p, RemoteCall.deleteSchedule p ∉ (main env yd s).1) ∧
    (∀ p, RemoteCall.modifySchedule p ∉ (main env yd s).1) := by
  have hp : parse_datetime_string s.start = Except.error (Outcome.failJson
      ("Failed to update schedule, unable to parse datetime " ++ s.start ++ ": " ++ e) false) := by
    rw [parse_datetime_string, h]
  rcases hur : update_resources env (poppedParams s) with ⟨tr, res⟩
  have htr : ∀ c ∈ tr, ∃ k f v, c = RemoteCall.lookup k f v := by
    have h2 := update_resources_trace_lookups env (poppedParams s)
    rw [hur] at h2
    exact h2
  have hnd : ∀ p : PMap, RemoteCall.deleteSchedule p ∉ tr := by
    intro p hmem
    obtain ⟨k, f, v, hc⟩ := htr _ hmem
    simp at hc
  have hnm : ∀ p : PMap, RemoteCall.modifySchedule p ∉ tr := by
    intro p hmem
    obtain ⟨k, f, v, hc⟩ := htr _ hmem
    simp at hc
  cases res with
  | error o =>
    have hm := main_eq_of_ur_error env yd s tr o hur
    rw [hm]
    have hshape := update_resources_main_shape env s
    rw [hur] at hshape
    rcases hshape with ⟨pr, hok⟩ | ⟨m2, hfj⟩
    · simp at hok
    · simp at hfj
      exact ⟨⟨m2, by simp [hfj]⟩, fun p => hnd p, fun p => hnm p⟩
  | ok pr =>
    have hm := main_eq_of_parse_err env yd s tr pr _ hur hp
    rw [hm]
    exact ⟨⟨_, rfl⟩, fun p => hnd p, fun p => hnm p⟩

/-- C2 counterexample: with a malformed start and a job template target the
run does fail on the timestamp, but a remote resource lookup was attempted
before that failure, against the claim that no remote call of any kind is. -/
theorem main_malformed_start_cex :
    (main okEnv pyStr badStartSpec).2 = Outcome.failJson
      "Failed to update schedule, unable to parse datetime bogus: time data 'bogus' does not match format '%Y-%m-%dT%H:%M:%SZ'"
      false ∧
    RemoteCall.lookup "job_template" "name" (PVal.vstr "jt") ∈ (main okEnv pyStr badStartSpec).1 := by
  decide

/-- C2 witness: the amended claim at the concrete malformed-start run. -/
theorem main_malformed_start_no_mutation_witness :
    RemoteCall.deleteSchedule schedParams ∉ (main okEnv pyStr badStartSpec).1 ∧
    RemoteCall.modifySchedule schedParams ∉ (main okEnv pyStr badStartSpec).1 :=
  ⟨(main_malformed_start_no_mutation okEnv pyStr badStartSpec
      "time data 'bogus' does not match format '%Y-%m-%dT%H:%M:%SZ'" rfl).2.1 schedParams,
   (main_malformed_start_no_mutation okEnv pyStr badStartSpec
      "time data 'bogus' does not match format '%Y-%m-%dT%H:%M:%SZ'" rfl).2.2 schedParams⟩

/-- C6: when the set target field (job_template, project or inventory_source,
mutually exclusive) fails its name lookup with NotFound, the run terminates
with a fatal fail_json carrying the collaborator's message and changed=False,
and no create, modify or delete call on the schedule is ever attempted. -/
theorem main_lookup_notfound_fatal (env : Env) (yd : PVal → String) (s : ScheduleSpec) (msg : String)
    (h : (truthy s.job_template = true ∧
            env.lookup "job_template" "name" s.job_template = Except.error msg) ∨
         (truthy s.job_template = false ∧ truthy s.project = true ∧
            env.lookup "project" "name" s.project = Except.error msg) ∨
         (truthy s.job_template = false ∧ truthy s.project = false ∧
            truthy s.inventory_source = true ∧
            env.lookup "inventory_source" "name" s.inventory_source = Except.error msg)) :
    (main env yd s).2 = Outcome.failJson ("Failed to update schedule: " ++ msg) false ∧
    (∀ p, RemoteCall.deleteSchedule p ∉ (main env yd s).1) ∧
    (∀ p, RemoteCall.modifySchedule p ∉ (main env yd s).1) := by
  have hg : pget (poppedParams s) "job_template" = some s.job_template := rfl
  have hg2 : pget (pdel (poppedParams s) "job_template") "project" = some s.project := rfl
  have hg3 : pget (pdel (pdel (poppedParams s) "job_template") "project") "inventory_source" =
      some s.inventory_source := rfl
  rcases h with ⟨h1, h2⟩ | ⟨h1, h2, h3⟩ | ⟨h1, h2, h3, h4⟩
  · have hur : update_resources env (poppedParams s) =
        ([RemoteCall.lookup "job_template" "name" s.job_template],
         Except.error (Outcome.failJson ("Failed to update schedule: " ++ msg) false)) := by
      simp [update_resources, identity_map, urLoop, hg, h1, h2]
    have hm := main_eq_of_ur_error env yd s _ _ hur
    rw [hm]
    refine ⟨rfl, ?_, ?_⟩ <;> intro p <;> simp
  · have hur : update_resources env (poppedParams s) =
        ([RemoteCall.lookup "project" "name" s.project],
         Except.error (Outcome.failJson ("Failed to update schedule: " ++ msg) false)) := by
      simp [update_resources, identity_map, urLoop, hg, hg2, h1, h2, h3]
    have hm := main_eq_of_ur_error env yd s _ _ hur
    rw [hm]
    refine ⟨rfl, ?_, ?_⟩ <;> intro p <;> simp
  · have hur : update_resources env (poppedParams s) =
        ([RemoteCall.lookup "inventory_source" "name" s.inventory_source],
         Except.error (Outcome.failJson ("Failed to update schedule: " ++ msg) false)) := by
      simp [update_resources, identity_map, urLoop, hg, hg2, hg3, h1, h2, h3, h4]
    have hm := main_eq_of_ur_error env yd s _ _ hur
    rw [hm]
    refine ⟨rfl, ?_, ?_⟩ <;> intro p <;> simp

/-- C6 witness: a failing job template lookup surfaces its NotFound message. -/
theorem main_lookup_notfound_fatal_witness :
    (main notFoundEnv pyStr jtSpec).2 = Outcome.failJson "Failed to update schedule: 404" false :=
  (main_lookup_notfound_fatal notFoundEnv pyStr jtSpec "404" (Or.inl ⟨rfl, rfl⟩)).1

/-- C7: the enabled flag carried by any outgoing schedule delete or modify
call equals state not-equal disabled, regardless of every other field. -/
theorem main_enabled_flag (env : Env) (yd : PVal → String) (s : ScheduleSpec) (p : PMap)
    (h : RemoteCall.deleteSchedule p ∈ (main env yd s).1 ∨
         RemoteCall.modifySchedule p ∈ (main env yd s).1) :
    pget p "enabled" = some (PVal.vbool (!(s.state == "disabled"))) := by
  rcases hur : update_resources env (poppedParams s) with ⟨tr, res⟩
  have htr : ∀ c ∈ tr, ∃ k f v, c = RemoteCall.lookup k f v := by
    have h2 := update_resources_trace_lookups env (poppedParams s)
    rw [hur] at h2
    exact h2
  have hnd : ∀ q : PMap, RemoteCall.deleteSchedule q ∉ tr := by
    intro q hmem
    obtain ⟨k, f, v, hc⟩ := htr _ hmem
    simp at hc
  have hnm : ∀ q : PMap, RemoteCall.modifySchedule q ∉ tr := by
    intro q hmem
    obtain ⟨k, f, v, hc⟩ := htr _ hmem
    simp at hc
  cases res with
  | error o =>
    have hm := main_eq_of_ur_error env yd s tr o hur
    rw [hm] at h
    rcases h with h | h
    · exact absurd h (hnd p)
    · exact absurd h (hnm p)
  | ok pr =>
    cases hp : parse_datetime_string s.start with
    | error o =>
      have hm := main_eq_of_parse_err env yd s tr pr o hur hp
      rw [hm] at h
      rcases h with h | h
      · exact absurd h (hnd p)
      · exact absurd h (hnm p)
    | ok dtstart =>
      cases hb : build_rrule dtstart s.frequency s.frequency_unit with
      | none =>
        have hm := main_eq_of_build_none env yd s tr pr dtstart hur hp hb
        rw [hm] at h
        rcases h with h | h
        · exact absurd h (hnd p)
        · exact absurd h (hnm p)
      | some rr =>
        have hm := main_eq_of_success env yd s tr pr dtstart rr hur hp hb
        rw [hm] at h
        have hpg : pget (finalParams yd s pr rr) "enabled" =
            some (PVal.vbool (!(s.state == "disabled"))) := by
          unfold finalParams
          rw [pget_pset_ne _ "rrule" "enabled" _ (by decide)]
          exact pget_pset_self _ _ _
        rcases h with h | h
        · rcases List.mem_append.mp h with h' | h'
          · exact absurd h' (hnd p)
          · rcases remotePhase_trace env s.state (jsonBase s) (finalParams yd s pr rr) with h2 | h2
            · rw [h2] at h'
              simp at h'
              rw [h']
              exact hpg
            · rw [h2] at h'
              simp at h'
        · rcases List.mem_append.mp h with h' | h'
          · exact absurd h' (hnm p)
          · rcases remotePhase_trace env s.state (jsonBase s) (finalParams yd s pr rr) with h2 | h2
            · rw [h2] at h'
              simp at h'
            · rw [h2] at h'
              simp at h'
              rw [h']
              exact hpg

/-- C7 witness: a present-state run carries enabled=true in its modify call. -/
theorem main_enabled_flag_witness : pget schedParams "enabled" = some (PVal.vbool true) :=
  main_enabled_flag okEnv pyStr presentSpec schedParams (Or.inr (by decide))

/-- C8: a state=absent run only ever issues the delete-schedule operation and
its successful output has no id field; every other state only ever issues the
create-or-update (modify) operation and its successful output carries the
remote-assigned identifier. -/
theorem main_absent_delete_dispatch (env : Env) (yd : PVal → String) (s : ScheduleSpec) :
    (s.state = "absent" →
      (∀ p, RemoteCall.modifySchedule p ∉ (main env yd s).1) ∧
      (∀ out, (main env yd s).2 = Outcome.exitJson out →
        (∃ p, RemoteCall.deleteSchedule p ∈ (main env yd s).1) ∧ pget out "id" = none)) ∧
    (s.state ≠ "absent" →
      (∀ p, RemoteCall.deleteSchedule p ∉ (main env yd s).1) ∧
      (∀ out, (main env yd s).2 = Outcome.exitJson out →
        ∃ p r, RemoteCall.modifySchedule p ∈ (main env yd s).1 ∧
          env.modifySchedule p = Except.ok r ∧ pget out "id" = some (PVal.vint r.id))) := by
  rcases hur : update_resources env (poppedParams s) with ⟨tr, res⟩
  have htr : ∀ c ∈ tr, ∃ k f v, c = RemoteCall.lookup k f v := by
    have h2 := update_resources_trace_lookups env (poppedParams s)
    rw [hur] at h2
    exact h2
  have hnd : ∀ q : PMap, RemoteCall.deleteSchedule q ∉ tr := by
    intro q hmem
    obtain ⟨k, f, v, hc⟩ := htr _ hmem
    simp at hc
  have hnm : ∀ q : PMap, RemoteCall.modifySchedule q ∉ tr := by
    intro q hmem
    obtain ⟨k, f, v, hc⟩ := htr _ hmem
    simp at hc
  cases res with
  | error o =>
    have hm := main_eq_of_ur_error env yd s tr o hur
    have hshape := update_resources_main_shape env s
    rw [hur] at hshape
    have ho : ∀ out, (main env yd s).2 ≠ Outcome.exitJson out := by
      intro out
      rw [hm]
      rcases hshape with ⟨pr, hok⟩ | ⟨m2, hfj⟩
      · simp at hok
      · simp at hfj
        simp [hfj]
    rw [hm]
    exact ⟨fun _ => ⟨fun p => hnm p, fun out hout => absurd hout (by rw [hm] at ho; exact ho out)⟩,
           fun _ => ⟨fun p => hnd p, fun out hout => absurd hout (by rw [hm] at ho; exact ho out)⟩⟩
  | ok pr =>
    cases hp : parse_datetime_string s.start with
    | error o =>
      have hm := main_eq_of_parse_err env yd s tr pr o hur hp
      obtain ⟨m2, ho2⟩ := parse_err_shape s.start o hp
      have ho : ∀ out, (tr, o).2 ≠ Outcome.exitJson out := by
        intro out
        simp [ho2]
      rw [hm]
      exact ⟨fun _ => ⟨fun p => hnm p, fun out hout => absurd hout (ho out)⟩,
             fun _ => ⟨fun p => hnd p, fun out hout => absurd hout (ho out)⟩⟩
    | ok dtstart =>
      cases hb : build_rrule dtstart s.frequency s.frequency_unit with
      | none =>
        have hm := main_eq_of_build_none env yd s tr pr dtstart hur hp hb
        rw [hm]
        exact ⟨fun _ => ⟨fun p => hnm p, fun out hout => by simp at hout⟩,
               fun _ => ⟨fun p => hnd p, fun out hout => by simp at hout⟩⟩
      | some rr =>
        have hm := main_eq_of_success env yd s tr pr dtstart rr hur hp hb
        by_cases hst : s.state = "absent"
        · have hbeq : (s.state == "absent") = true := by simp [hst]
          constructor
          · intro _
            constructor
            · intro p hmem
              rw [hm] at hmem
              rcases List.mem_append.mp hmem with h' | h'
              · exact hnm p h'
              · cases hd : env.deleteSchedule (finalParams yd s pr rr) with
                | ok r =>
                  rw [remotePhase_absent_ok env s.state (jsonBase s) _ r hbeq hd] at h'
                  simp at h'
                | error ex =>
                  rw [remotePhase_absent_err env s.state (jsonBase s) _ ex hbeq hd] at h'
                  simp at h'
            · intro out hout
              rw [hm] at hout ⊢
              cases hd : env.deleteSchedule (finalParams yd s pr rr) with
              | ok r =>
                rw [remotePhase_absent_ok env s.state (jsonBase s) _ r hbeq hd] at hout ⊢
                simp at hout
                constructor
                · exact ⟨finalParams yd s pr rr, by simp⟩
                · rw [← hout]
                  rfl
              | error ex =>
                rw [remotePhase_absent_err env s.state (jsonBase s) _ ex hbeq hd] at hout
                simp at hout
          · intro hne
            exact absurd hst hne
        · have hbeq : (s.state == "absent") = false := by simp [hst]
          constructor
          · intro heq
            exact absurd heq hst
          · intro _
            constructor
            · intro p hmem
              rw [hm] at hmem
              rcases List.mem_append.mp hmem with h' | h'
              · exact hnd p h'
              · cases hd : env.modifySchedule (finalParams yd s pr rr) with
                | ok r =>
                  rw [remotePhase_present_ok env s.state (jsonBase s) _ r hbeq hd] at h'
                  simp at h'
                | error ex =>
                  rw [remotePhase_present_err env s.state (jsonBase s) _ ex hbeq hd] at h'
                  simp at h'
            · intro out hout
              rw [hm] at hout ⊢
              cases hd : env.modifySchedule (finalParams yd s pr rr) with
              | ok r =>
                rw [remotePhase_present_ok env s.state (jsonBase s) _ r hbeq hd] at hout ⊢
                simp at hout
                refine ⟨finalParams yd s pr rr, r, by simp, hd, ?_⟩
                rw [← hout]
                rfl
              | error ex =>
                rw [remotePhase_present_err env s.state (jsonBase s) _ ex hbeq hd] at hout
                simp at hout

/-- C8 witness: the absent-state run issues only a delete and its output has
no id field. -/
theorem main_absent_delete_dispatch_witness :
    RemoteCall.modifySchedule schedParams ∉ (main okEnv pyStr absentSpec).1 ∧
    pget absentOut "id" = none :=
  ⟨((main_absent_delete_dispatch okEnv pyStr absentSpec).1 rfl).1 schedParams,
   (((main_absent_delete_dispatch okEnv pyStr absentSpec).1 rfl).2 absentOut (by decide)).2⟩

/-- C9: every fail_json reported by a run carries changed=False: a failure
outcome with changed flag c in fact has c = false. -/
theorem main_failure_changed_false (env : Env) (yd : PVal → String) (s : ScheduleSpec)
    (m : String) (c : Bool) (h : (main env yd s).2 = Outcome.failJson m c) :
    (main env yd s).2 = Outcome.failJson m false := by
  rcases hur : update_resources env (poppedParams s) with ⟨tr, res⟩
  cases res with
  | error o =>
    have hm := main_eq_of_ur_error env yd s tr o hur
    have hshape := update_resources_main_shape env s
    rw [hur] at hshape
    rw [hm] at h ⊢
    rcases hshape with ⟨pr, hok⟩ | ⟨m2, hfj⟩
    · simp at hok
    · simp at hfj
      simp [hfj] at h ⊢
      exact h.1
  | ok pr =>
    cases hp : parse_datetime_string s.start with
    | error o =>
      have hm := main_eq_of_parse_err env yd s tr pr o hur hp
      obtain ⟨m2, ho2⟩ := parse_err_shape s.start o hp
      rw [hm] at h ⊢
      simp [ho2] at h ⊢
      exact h.1
    | ok dtstart =>
      cases hb : build_rrule dtstart s.frequency s.frequency_unit with
      | none =>
        have hm := main_eq_of_build_none env yd s tr pr dtstart hur hp hb
        rw [hm] at h
        simp at h
      | some rr =>
        have hm := main_eq_of_success env yd s tr pr dtstart rr hur hp hb
        rw [hm] at h ⊢
        have hc := remotePhase_fail_false env s.state (jsonBase s) (finalParams yd s pr rr) m c h
        rw [hc] at h
        exact h

/-- C9 witness: the failing malformed-start run reports changed=False. -/
theorem main_failure_changed_false_witness :
    (main okEnv pyStr badStartSpec).2 = Outcome.failJson
      "Failed to update schedule, unable to parse datetime bogus: time data 'bogus' does not match format '%Y-%m-%dT%H:%M:%SZ'"
      false :=
  main_failure_changed_false okEnv pyStr badStartSpec
    "Failed to update schedule, unable to parse datetime bogus: time data 'bogus' does not match format '%Y-%m-%dT%H:%M:%SZ'"
    false (by decide)

end TowerSchedule
